import Mathlib

/-!
Verification of the `convertkit` Go client (videofruit/ck).

Shallow embedding of `src/convertkit/convertkit.go`. Effectful pieces
(HTTP, the clock used by `parseDate`'s "yesterday" branch) are modelled as
an explicit `World` of oracles; each client operation additionally returns
the list of HTTP requests it issued, so that "no request is sent" claims
are statable. Go's `(value, error)` returns are modelled as
`value × Option Error` pairs where the value is Go's zero value under
error, or as `Except Error value` where the Go value is a pointer that is
`nil` exactly when the error is non-nil.

The bounded-concurrency section of `Client.Subscribers` (errgroup plus a
buffered channel used as a counting semaphore) is modelled two ways:
* a deterministic run `Subscribers` parameterised by the completion
  schedule `sched` of the page-2..T goroutines (each goroutine writes only
  `pages[i-1]`, and `errgroup.Group` keeps the first error in completion
  order, which `sched` makes explicit);
* a small-step transition system `FetchStep` over per-goroutine statuses,
  for the claim that never more than `ConcurrentRequests` fetches are
  outstanding.
-/

namespace ConvertKit

/-- Errors produced by the client, mirroring the `error` values in
`convertkit.go`: the two package-level sentinel errors, validation errors
built with `errors.New`, HTTP status errors, date-parse errors from
`time.Parse`, and transport/decode errors surfaced by the HTTP layer. -/
inductive Error where
  | keyMissing
  | secretMissing
  | validation (msg : String)
  | httpStatus (status : String)
  | dateParse (date : String)
  | transport (msg : String)
  deriving DecidableEq, Repr

/-- `Config` from `convertkit.go` (the `HTTPClient` field is part of the
`World` of oracles instead). -/
structure Config where
  endpoint : String
  key : String
  secret : String
  concurrentRequests : Nat
  deriving DecidableEq, Repr

/-- `Subscriber` from `convertkit.go`; `CreatedAt` (`time.Time`) is kept
as an opaque string, `Fields` (`map[string]string`) as an association
list. -/
structure Subscriber where
  id : Int
  firstName : String
  emailAddress : String
  state : String
  createdAt : String
  fields : List (String × String)
  deriving DecidableEq, Repr

/-- `subscriberPage` (the response struct) from `convertkit.go`. -/
structure SubscriberPage where
  totalSubscribers : Int
  page : Int
  totalPages : Nat
  subscribers : List Subscriber
  deriving DecidableEq, Repr

/-- Go's zero value for the `subscriberPage` struct: entries of the
`pages` slice in `Client.Subscribers` start out as this value. -/
def zeroPage : SubscriberPage :=
  { totalSubscribers := 0, page := 0, totalPages := 0, subscribers := [] }

/-- `Subscription` from `convertkit.go` (the embedded `Subscriber`
flattened in, `CreatedAt` as an opaque string). -/
structure Subscription where
  id : Int
  state : String
  createdAt : String
  source : String
  referrer : String
  subscribableID : Int
  subscribableType : String
  subscriber : Subscriber
  deriving DecidableEq, Repr

/-- Go's zero value for `Subscription`, returned by
`CreateTagSubscription` alongside an error. -/
def zeroSubscription : Subscription :=
  { id := 0, state := "", createdAt := "", source := "", referrer := ""
    subscribableID := 0, subscribableType := ""
    subscriber := { id := 0, firstName := "", emailAddress := "", state := ""
                    createdAt := "", fields := [] } }

/-- `SubscriberQuery` from `convertkit.go`. -/
structure SubscriberQuery where
  since : String
  until_ : String
  reverse : Bool
  cancelled : Bool
  emailAddress : String
  deriving DecidableEq, Repr

/-- `SubscriptionRequest` from `convertkit.go`. -/
structure SubscriptionRequest where
  email : String
  firstName : String
  fields : List (String × String)
  tags : List Int
  apiKey : String
  deriving DecidableEq, Repr

/-- `SubscriptionRequest.AddTag`: appends `newTag` to `Tags` unless the
linear scan `for _, tag := range r.Tags` finds it already present. The Go
method mutates the receiver; here it returns the updated request. -/
def SubscriptionRequest.addTag (r : SubscriptionRequest) (newTag : Int) :
    SubscriptionRequest :=
  if r.tags.contains newTag then r
  else { r with tags := r.tags ++ [newTag] }

/-- The effectful environment of the client: the HTTP `GET`/decode path of
`sendRequest` for the subscribers endpoint, the `POST`/decode path of
`postJSON` for the tag-subscribe endpoint, and the string
`time.Now().Add(-24 * time.Hour).Format("2006-01-02")` consulted by
`parseDate`'s "yesterday" branch. -/
structure World where
  get : String → Except Error SubscriberPage
  post : String → SubscriptionRequest → Except Error Subscription

/-- Gregorian leap test, as performed by Go's `time` package when
validating a parsed date. -/
def isLeapYear (y : Nat) : Bool :=
  (y % 4 == 0 && y % 100 != 0) || y % 400 == 0

/-- Number of days in a month, used to validate the day field as
`time.Parse` does. -/
def daysInMonth (y m : Nat) : Nat :=
  if m == 2 then (if isLeapYear y then 29 else 28)
  else if m == 4 || m == 6 || m == 9 || m == 11 then 30
  else 31

/-- Model of `time.Parse("2006-01-02", date)` succeeding: the string is
exactly `YYYY-MM-DD` with a valid calendar month and day. -/
def isValidDate (s : String) : Bool :=
  match s.toList with
  | [y1, y2, y3, y4, '-', m1, m2, '-', d1, d2] =>
    if y1.isDigit && y2.isDigit && y3.isDigit && y4.isDigit &&
       m1.isDigit && m2.isDigit && d1.isDigit && d2.isDigit then
      let y := ((y1.toNat - 48) * 10 + (y2.toNat - 48)) * 100 +
               ((y3.toNat - 48) * 10 + (y4.toNat - 48))
      let m := (m1.toNat - 48) * 10 + (m2.toNat - 48)
      let d := (d1.toNat - 48) * 10 + (d2.toNat - 48)
      1 ≤ m && m ≤ 12 && 1 ≤ d && d ≤ daysInMonth y m
    else false
  | _ => false

/-- `parseDate` from `convertkit.go`. The "yesterday" branch formats
`time.Now().Add(-24h)`; that clock read is the explicit `yesterday`
argument here, since the embedding is pure. -/
def parseDate (yesterday : String) (date : String) : Except Error String :=
  if date.toLower == "yesterday" then .ok yesterday
  else if isValidDate date then .ok date
  else .error (.dateParse date)

/-- The query-parameter suffix that `subscriberPage` appends to the URL
when `query != nil`, in the source's append order (`from`, `to`,
`sort_order`, `sort_field`, `email_address`); a failing `parseDate`
aborts with its error exactly as the early `return nil, err` does. -/
def querySuffix (yesterday : String) (q : SubscriberQuery) :
    Except Error String := do
  let fromPart ←
    if q.since != "" then do
      let s ← parseDate yesterday q.since
      pure ("&from=" ++ s)
    else pure ""
  let toPart ←
    if q.until_ != "" then do
      let s ← parseDate yesterday q.until_
      pure ("&to=" ++ s)
    else pure ""
  let revPart := if q.reverse then "&sort_order=desc" else ""
  let cancPart := if q.cancelled then "&sort_field=cancelled_at" else ""
  let emailPart :=
    if q.emailAddress != "" then "&email_address=" ++ q.emailAddress else ""
  pure (fromPart ++ toPart ++ revPart ++ cancPart ++ emailPart)

/-- `Client.subscriberPage`: fails with `ErrSecretMissing` before any I/O
when the secret is unset, otherwise builds the URL and performs one
`GET`. Returns the Go `(*subscriberPage, error)` pair as an `Except`
(the pointer is nil exactly when the error is non-nil) together with the
list of URLs actually requested. -/
def subscriberPage (cfg : Config) (w : World) (yesterday : String)
    (page : Nat) (query : Option SubscriberQuery) :
    Except Error SubscriberPage × List String :=
  if cfg.secret == "" then (.error .secretMissing, [])
  else
    let base := cfg.endpoint ++ "/v3/subscribers?api_secret=" ++ cfg.secret ++
                "&page=" ++ toString page
    match (match query with
           | none => (.ok base : Except Error String)
           | some q => (querySuffix yesterday q).map (fun s => base ++ s)) with
    | .error e => (.error e, [])
    | .ok url =>
      match w.get url with
      | .ok p => (.ok p, [url])
      | .error e => (.error e, [url])

/-- The page-2..T goroutine loop of `Client.Subscribers`, run in the
completion order `sched`: each completing goroutine either stores its page
at `pages[i-1]` (success) or records its error (and `errgroup.Group`
keeps only the first error in completion order, hence `firstErr <|> _`).
Every scheduled goroutine performs its fetch regardless of earlier
failures — plain `errgroup.Group` does no cancellation. -/
def runPages (cfg : Config) (w : World) (yesterday : String)
    (query : Option SubscriberQuery) (sched : List Nat)
    (pages : List SubscriberPage) (firstErr : Option Error)
    (log : List String) :
    List SubscriberPage × Option Error × List String :=
  match sched with
  | [] => (pages, firstErr, log)
  | i :: rest =>
    match subscriberPage cfg w yesterday i query with
    | (.ok p, l) =>
      runPages cfg w yesterday query rest (pages.set (i - 1) p) firstErr
        (log ++ l)
    | (.error e, l) =>
      runPages cfg w yesterday query rest pages (firstErr <|> some e)
        (log ++ l)

/-- `Client.Subscribers`: fetch page 1 synchronously; if its
`TotalPages <= 1` return its items; otherwise run the page-2..T
goroutines (in the completion order `sched`), fail if any failed, and
otherwise concatenate `pages[0..total-1].Subscribers` in index order.
Returns Go's `([]Subscriber, error)` as `value × Option Error` (the slice
is nil on error) plus the list of URLs requested. -/
def Subscribers (cfg : Config) (w : World) (yesterday : String)
    (query : Option SubscriberQuery) (sched : List Nat) :
    List Subscriber × Option Error × List String :=
  match subscriberPage cfg w yesterday 1 query with
  | (.error e, l) => ([], some e, l)
  | (.ok p, l) =>
    let total := p.totalPages
    if total ≤ 1 then (p.subscribers, none, l)
    else
      let init := (List.replicate total zeroPage).set 0 p
      match runPages cfg w yesterday query sched init none l with
      | (_, some e, log) => ([], some e, log)
      | (pages, none, log) => ((pages.map (·.subscribers)).flatten, none, log)

/-- `Client.TotalSubscribers`: fetch page 1 with a nil query and report
its `TotalSubscribers` field (0 with the error under failure). -/
def TotalSubscribers (cfg : Config) (w : World) (yesterday : String) :
    Int × Option Error × List String :=
  match subscriberPage cfg w yesterday 1 none with
  | (.error e, l) => (0, some e, l)
  | (.ok p, l) => (p.totalSubscribers, none, l)

/-- `Client.CreateTagSubscription`: reject a request with no tags before
any I/O, default the API key from the client config, then `POST` to
`/v3/tags/<Tags[0]>/subscribe`. Returns Go's `(Subscription, error)`
(zero-value `Subscription` alongside an error) plus the list of paths
posted to. -/
def CreateTagSubscription (cfg : Config) (w : World)
    (req : SubscriptionRequest) :
    Subscription × Option Error × List String :=
  match req.tags with
  | [] =>
    (zeroSubscription,
     some (.validation "Must specify at least one Tag to create a subscription"),
     [])
  | t0 :: _ =>
    let req' := if req.apiKey == "" then { req with apiKey := cfg.key } else req
    let path := "/v3/tags/" ++ toString t0 ++ "/subscribe"
    match w.post path req' with
    | .ok s => (s, none, [path])
    | .error e => (zeroSubscription, some e, [path])

/-- `Client.TagSubscriber`: delegates to `CreateTagSubscription` with a
request holding only the email and the single tag. -/
def TagSubscriber (cfg : Config) (w : World) (email : String)
    (tagID : Int) : Subscription × Option Error × List String :=
  CreateTagSubscription cfg w
    { email := email, firstName := "", fields := [], tags := [tagID]
      apiKey := "" }

/-! ## Transition system for the bounded-concurrency section

`Client.Subscribers` spawns one goroutine per page 2..T. Each goroutine
first sends on the buffered channel `limiter` (capacity
`ConcurrentRequests`), blocking while the buffer is full, then fetches,
then receives from `limiter` on its way out. A goroutine is therefore
`blocked` (waiting on `limiter <- true`), `fetching` (holding a buffer
slot while `subscriberPage` runs), or `done` (slot released). -/

/-- Status of one page-fetch goroutine. -/
inductive WorkerStatus where
  | blocked
  | fetching
  | done
  deriving DecidableEq, Repr

/-- Number of goroutines currently holding a `limiter` buffer slot, i.e.
page fetches outstanding. -/
def outstanding (s : List WorkerStatus) : Nat :=
  s.countP (· = WorkerStatus.fetching)

/-- One scheduler step of the goroutine pool: a blocked goroutine may
send on `limiter` only while the buffer has a free slot (fewer than
`limit` outstanding); a fetching goroutine may complete, receiving from
`limiter` as it returns. -/
inductive FetchStep (limit : Nat) :
    List WorkerStatus → List WorkerStatus → Prop where
  | acquire (s : List WorkerStatus) (k : Nat)
      (hk : s[k]? = some WorkerStatus.blocked)
      (hfree : outstanding s < limit) :
      FetchStep limit s (s.set k WorkerStatus.fetching)
  | finish (s : List WorkerStatus) (k : Nat)
      (hk : s[k]? = some WorkerStatus.fetching) :
      FetchStep limit s (s.set k WorkerStatus.done)

/-- States reachable by the goroutine pool for pages 2..T (so `n = T - 1`
workers), starting with every goroutine about to send on `limiter`. -/
inductive FetchReachable (limit n : Nat) : List WorkerStatus → Prop where
  | init : FetchReachable limit n (List.replicate n WorkerStatus.blocked)
  | step {s t : List WorkerStatus} (hs : FetchReachable limit n s)
      (hst : FetchStep limit s t) : FetchReachable limit n t

/-! ## Concrete fixtures

Small closed configurations, pages and oracle worlds used to evaluate the
operations on concrete inputs. -/

/-- A sample subscriber record. -/
def sampleSub (n : Int) : Subscriber :=
  { id := n, firstName := "a", emailAddress := "a@b.c", state := "confirmed"
    createdAt := "2020-01-01", fields := [] }

/-- Page `i` of a resource with `total` pages, holding two subscribers. -/
def samplePage (i total : Nat) : SubscriberPage :=
  { totalSubscribers := 2 * total, page := i, totalPages := total
    subscribers := [sampleSub (10 * (i : Int)), sampleSub (10 * (i : Int) + 1)] }

/-- The pages of the three-page sample resource, indexed by page
number. -/
def sample3 : Nat → SubscriberPage := fun i => samplePage i 3

/-- A test configuration with endpoint `E`, key `k`, secret `s`. -/
def testCfg : Config :=
  { endpoint := "E", key := "k", secret := "s", concurrentRequests := 2 }

/-- A configuration whose API secret is unset. -/
def noSecretCfg : Config :=
  { endpoint := "E", key := "k", secret := "", concurrentRequests := 2 }

/-- A configuration whose API key is unset. -/
def noKeyCfg : Config :=
  { endpoint := "E", key := "", secret := "s", concurrentRequests := 2 }

/-- The URL `subscriberPage` builds for page `i` under `testCfg` with a
nil query. -/
def pageURL (i : Nat) : String :=
  "E/v3/subscribers?api_secret=s&page=" ++ toString i

/-- A three-page resource served under `testCfg`. -/
def world3 : World :=
  { get := fun url =>
      if url == pageURL 1 then .ok (samplePage 1 3)
      else if url == pageURL 2 then .ok (samplePage 2 3)
      else if url == pageURL 3 then .ok (samplePage 3 3)
      else .error (.transport "unexpected url")
    post := fun _ _ => .ok zeroSubscription }

/-- A one-page resource served under `testCfg`. -/
def world1 : World :=
  { get := fun url =>
      if url == pageURL 1 then .ok (samplePage 1 1)
      else .error (.transport "unexpected url")
    post := fun _ _ => .ok zeroSubscription }

/-- A server that fails every `GET`. -/
def worldFail1 : World :=
  { get := fun _ => .error (.httpStatus "500 Internal Server Error")
    post := fun _ _ => .ok zeroSubscription }

/-- A three-page resource whose page 3 (and anything else unexpected)
fails. -/
def worldFail3 : World :=
  { get := fun url =>
      if url == pageURL 1 then .ok (samplePage 1 3)
      else if url == pageURL 2 then .ok (samplePage 2 3)
      else .error (.httpStatus "502 Bad Gateway")
    post := fun _ _ => .ok zeroSubscription }

/-- A server whose `POST` oracle echoes the request's `api_key` in the
`source` field and the path in `referrer`, making what was sent over the
wire observable in the result. -/
def keyProbeWorld : World :=
  { get := fun _ => .error (.transport "unused")
    post := fun path r =>
      .ok { zeroSubscription with source := r.apiKey, referrer := path } }

/-! ## Helper lemmas about `runPages` -/

theorem runPages_length (cfg : Config) (w : World) (yesterday : String)
    (query : Option SubscriberQuery) (sched : List Nat)
    (pages : List SubscriberPage) (e : Option Error) (log : List String) :
    ((runPages cfg w yesterday query sched pages e log).1).length =
      pages.length := by
  induction sched generalizing pages e log with
  | nil => rfl
  | cons i rest ih =>
    rcases hf : subscriberPage cfg w yesterday i query with ⟨res, lg⟩
    cases res with
    | ok p => simp [runPages, hf, ih]
    | error e' => simp [runPages, hf, ih]

theorem runPages_getElem? (cfg : Config) (w : World) (yesterday : String)
    (query : Option SubscriberQuery) (sched : List Nat)
    (pages : List SubscriberPage) (e : Option Error) (log : List String)
    (j : Nat) (hj : j < pages.length) (hpos : ∀ i ∈ sched, 1 ≤ i) :
    ((runPages cfg w yesterday query sched pages e log).1)[j]? =
      match (subscriberPage cfg w yesterday (j + 1) query).1 with
      | .ok p => if j + 1 ∈ sched then some p else pages[j]?
      | .error _ => pages[j]? := by
  induction sched generalizing pages e log with
  | nil =>
    cases (subscriberPage cfg w yesterday (j + 1) query).1 <;>
      simp [runPages]
  | cons i rest ih =>
    have hi1 : 1 ≤ i := hpos i (List.mem_cons_self i rest)
    have hposr : ∀ a ∈ rest, 1 ≤ a := fun a ha => hpos a (List.mem_cons_of_mem i ha)
    rcases hf : subscriberPage cfg w yesterday i query with ⟨res, lg⟩
    cases res with
    | ok p =>
      simp only [runPages, hf]
      rw [ih (pages.set (i - 1) p) e (log ++ lg) (by simpa using hj) hposr]
      by_cases hij : i = j + 1
      · subst hij
        have hfst : (subscriberPage cfg w yesterday (j + 1) query).1 = .ok p := by
          rw [hf]
        simp only [hfst, List.mem_cons, true_or, if_true, Nat.add_sub_cancel]
        by_cases hmem : j + 1 ∈ rest
        · simp [hmem]
        · simp [hmem, List.getElem?_set_self hj]
      · have hne : i - 1 ≠ j := by omega
        have hij' : ¬ (j + 1 = i) := fun h => hij h.symm
        rw [List.getElem?_set_ne hne]
        cases hq : (subscriberPage cfg w yesterday (j + 1) query).1 <;>
          simp [List.mem_cons, hij']
    | error e' =>
      simp only [runPages, hf]
      rw [ih pages (e <|> some e') (log ++ lg) hj hposr]
      cases hq : (subscriberPage cfg w yesterday (j + 1) query).1 with
      | ok p' =>
        have hij' : ¬ (j + 1 = i) := by
          intro h
          rw [← h] at hf
          rw [hf] at hq
          simp at hq
        simp [List.mem_cons, hij']
      | error _ => rfl

theorem runPages_err_mono (cfg : Config) (w : World) (yesterday : String)
    (query : Option SubscriberQuery) (sched : List Nat)
    (pages : List SubscriberPage) (e : Option Error) (log : List String)
    (he : e.isSome) :
    ((runPages cfg w yesterday query sched pages e log).2.1).isSome := by
  induction sched generalizing pages e log with
  | nil => simpa [runPages] using he
  | cons i rest ih =>
    rcases hf : subscriberPage cfg w yesterday i query with ⟨res, lg⟩
    cases res with
    | ok p => rw [runPages, hf]; exact ih _ _ _ he
    | error e' =>
      rw [runPages, hf]
      exact ih _ _ _ (by cases e <;> simp_all)

theorem runPages_err_isSome (cfg : Config) (w : World) (yesterday : String)
    (query : Option SubscriberQuery) (sched : List Nat)
    (pages : List SubscriberPage) (e : Option Error) (log : List String)
    (i : Nat) (hi : i ∈ sched) (ei : Error)
    (he : (subscriberPage cfg w yesterday i query).1 = .error ei) :
    ((runPages cfg w yesterday query sched pages e log).2.1).isSome := by
  induction sched generalizing pages e log with
  | nil => simp at hi
  | cons a rest ih =>
    rcases hf : subscriberPage cfg w yesterday a query with ⟨res, lg⟩
    cases res with
    | ok p =>
      simp only [runPages, hf]
      rcases List.mem_cons.mp hi with rfl | hmem
      · rw [hf] at he
        simp at he
      · exact ih _ _ _ hmem
    | error e' =>
      simp only [runPages, hf]
      exact runPages_err_mono _ _ _ _ _ _ _ _ (by cases e <;> simp)

theorem runPages_err_none (cfg : Config) (w : World) (yesterday : String)
    (query : Option SubscriberQuery) (sched : List Nat)
    (pages : List SubscriberPage) (log : List String)
    (h : ∀ i ∈ sched, ∃ p, (subscriberPage cfg w yesterday i query).1 = .ok p) :
    (runPages cfg w yesterday query sched pages none log).2.1 = none := by
  induction sched generalizing pages log with
  | nil => rfl
  | cons i rest ih =>
    obtain ⟨p, hp⟩ := h i (List.mem_cons_self i rest)
    rcases hf : subscriberPage cfg w yesterday i query with ⟨res, lg⟩
    rw [hf] at hp
    cases res with
    | ok q =>
      rw [runPages, hf]
      exact ih _ _ (fun a ha => h a (List.mem_cons_of_mem i ha))
    | error e' => exact absurd hp (by simp)

theorem runPages_log (cfg : Config) (w : World) (yesterday : String)
    (query : Option SubscriberQuery) (sched : List Nat)
    (pages : List SubscriberPage) (e : Option Error) (log : List String) :
    (runPages cfg w yesterday query sched pages e log).2.2 =
      log ++
        (sched.map (fun i => (subscriberPage cfg w yesterday i query).2)).flatten := by
  induction sched generalizing pages e log with
  | nil => simp [runPages]
  | cons i rest ih =>
    rcases hf : subscriberPage cfg w yesterday i query with ⟨res, lg⟩
    cases res with
    | ok p => rw [runPages, hf]; simp [ih, hf, List.append_assoc]
    | error e' => rw [runPages, hf]; simp [ih, hf, List.append_assoc]

theorem Subscribers_eq_of_ok (cfg : Config) (w : World) (yesterday : String)
    (query : Option SubscriberQuery) (sched : List Nat)
    (p : SubscriberPage) (l1 : List String)
    (h1 : subscriberPage cfg w yesterday 1 query = (.ok p, l1))
    (h2 : ¬ p.totalPages ≤ 1) :
    Subscribers cfg w yesterday query sched =
      (match runPages cfg w yesterday query sched
              ((List.replicate p.totalPages zeroPage).set 0 p) none l1 with
       | (_, some e, log) => ([], some e, log)
       | (pages, none, log) =>
         ((pages.map (·.subscribers)).flatten, none, log)) := by
  unfold Subscribers
  rw [h1]
  simp only [h2, if_false]

/-! ## Claim theorems -/

/-- C2: if fetching page 1 fails, `Subscribers` returns that error
immediately — the result is Go's nil slice, the error is the page-1
error verbatim, and the request log is exactly what the page-1 call
produced, so zero fetches of pages 2..T are performed. -/
theorem subscribers_page1_error_short_circuits (cfg : Config) (w : World)
    (yesterday : String) (query : Option SubscriberQuery) (sched : List Nat)
    (e : Error) (l : List String)
    (h : subscriberPage cfg w yesterday 1 query = (.error e, l)) :
    Subscribers cfg w yesterday query sched = ([], some e, l) := by
  unfold Subscribers
  rw [h]

/-- Witness for `subscribers_page1_error_short_circuits`: a server that
answers page 1 with a 500 status. -/
theorem subscribers_page1_error_short_circuits_witness :
    Subscribers testCfg worldFail1 "" none [3, 2] =
      ([], some (.httpStatus "500 Internal Server Error"), [pageURL 1]) :=
  subscribers_page1_error_short_circuits testCfg worldFail1 "" none [3, 2]
    (.httpStatus "500 Internal Server Error") [pageURL 1] rfl

/-- C3: if page 1 reports `TotalPages <= 1`, `Subscribers` returns
exactly page 1's items unmodified, and the request log is exactly the
page-1 call's, so no further page fetch is issued. -/
theorem subscribers_single_page (cfg : Config) (w : World)
    (yesterday : String) (query : Option SubscriberQuery) (sched : List Nat)
    (p : SubscriberPage) (l : List String)
    (h : subscriberPage cfg w yesterday 1 query = (.ok p, l))
    (hT : p.totalPages ≤ 1) :
    Subscribers cfg w yesterday query sched = (p.subscribers, none, l) := by
  unfold Subscribers
  rw [h]
  simp only [hT, if_true]

/-- Witness for `subscribers_single_page`: a one-page resource. -/
theorem subscribers_single_page_witness :
    Subscribers testCfg world1 "" none [] =
      ((samplePage 1 1).subscribers, none, [pageURL 1]) :=
  subscribers_single_page testCfg world1 "" none [] (samplePage 1 1)
    [pageURL 1] rfl (by decide)

/-- C6: with an empty configured secret, both `Subscribers` and
`TotalSubscribers` fail with the distinct `ErrSecretMissing` error and
issue zero HTTP requests (empty request log), whatever the server, query
or schedule. -/
theorem secret_missing_blocks_requests (cfg : Config) (w : World)
    (yesterday : String) (query : Option SubscriberQuery) (sched : List Nat)
    (h : cfg.secret = "") :
    Subscribers cfg w yesterday query sched =
      ([], some Error.secretMissing, []) ∧
    TotalSubscribers cfg w yesterday = (0, some Error.secretMissing, []) := by
  have hp : ∀ (q : Option SubscriberQuery) (page : Nat),
      subscriberPage cfg w yesterday page q =
        (.error Error.secretMissing, []) := by
    intro q page
    unfold subscriberPage
    rw [h]
    rfl
  constructor
  · unfold Subscribers
    rw [hp query 1]
  · unfold TotalSubscribers
    rw [hp none 1]

/-- Witness for `secret_missing_blocks_requests`: the secretless
configuration against a live three-page server. -/
theorem secret_missing_blocks_requests_witness :
    Subscribers noSecretCfg world3 "" none [3, 2] =
      ([], some Error.secretMissing, []) ∧
    TotalSubscribers noSecretCfg world3 "" =
      (0, some Error.secretMissing, []) :=
  secret_missing_blocks_requests noSecretCfg world3 "" none [3, 2] rfl

/-- C8: a `SubscriptionRequest` with no tags makes
`CreateTagSubscription` return the validation error and the zero-value
`Subscription`, with no HTTP request sent. -/
theorem create_tag_subscription_empty_tags (cfg : Config) (w : World)
    (req : SubscriptionRequest) (h : req.tags = []) :
    CreateTagSubscription cfg w req =
      (zeroSubscription,
       some (.validation "Must specify at least one Tag to create a subscription"),
       []) := by
  unfold CreateTagSubscription
  rw [h]

/-- Witness for `create_tag_subscription_empty_tags`. -/
theorem create_tag_subscription_empty_tags_witness :
    CreateTagSubscription testCfg world3
      { email := "a@b.c", firstName := "", fields := [], tags := []
        apiKey := "" } =
      (zeroSubscription,
       some (.validation "Must specify at least one Tag to create a subscription"),
       []) :=
  create_tag_subscription_empty_tags testCfg world3
    { email := "a@b.c", firstName := "", fields := [], tags := []
      apiKey := "" } rfl

/-- C9 (divergence witness): with the API key absent from both the
request and the client configuration, `CreateTagSubscription` does NOT
fail before I/O: it sends the HTTP POST anyway (non-empty request log)
with an empty `api_key` on the wire (echoed back in `source` by the
probe server), and never returns `ErrKeyMissing` — the declared
`ErrKeyMissing` sentinel is dead code. -/
theorem create_tag_subscription_missing_key_posts :
    noKeyCfg.key = "" ∧
    CreateTagSubscription noKeyCfg keyProbeWorld
      { email := "x@y.z", firstName := "", fields := [], tags := [3]
        apiKey := "" } =
      ({ zeroSubscription with source := "", referrer := "/v3/tags/3/subscribe" },
       none, ["/v3/tags/3/subscribe"]) :=
  ⟨rfl, rfl⟩

/-- C10: `TagSubscriber email tagID` returns exactly
`CreateTagSubscription` applied to the request with that email, the
single tag `[tagID]`, and zero values elsewhere. -/
theorem tagSubscriber_eq_createTagSubscription (cfg : Config) (w : World)
    (email : String) (tagID : Int) :
    TagSubscriber cfg w email tagID =
      CreateTagSubscription cfg w
        { email := email, firstName := "", fields := [], tags := [tagID]
          apiKey := "" } :=
  rfl

/-- C1: when page 1 reports `T >= 1` total pages and every page fetch
succeeds, `Subscribers` succeeds and returns the concatenation of the
items of pages 1, 2, ..., T in ascending page order, with each page's
items in server order — whatever completion order `sched` the
concurrent page-2..T fetches finish in, so no item is duplicated or
dropped. -/
theorem subscribers_merge_order (cfg : Config) (w : World)
    (yesterday : String) (query : Option SubscriberQuery) (sched : List Nat)
    (ps : Nat → SubscriberPage) (l1 : List String)
    (h1 : subscriberPage cfg w yesterday 1 query = (.ok (ps 1), l1))
    (hT : 1 ≤ (ps 1).totalPages)
    (hsched : ∀ i, i ∈ sched ↔ 2 ≤ i ∧ i ≤ (ps 1).totalPages)
    (hok : ∀ i, 2 ≤ i → i ≤ (ps 1).totalPages →
      (subscriberPage cfg w yesterday i query).1 = .ok (ps i)) :
    (Subscribers cfg w yesterday query sched).1 =
      ((List.range (ps 1).totalPages).map
        (fun k => (ps (k + 1)).subscribers)).flatten ∧
    (Subscribers cfg w yesterday query sched).2.1 = none := by
  by_cases hle : (ps 1).totalPages ≤ 1
  · have hT1 : (ps 1).totalPages = 1 := le_antisymm hle hT
    unfold Subscribers
    rw [h1]
    simp only [hle, if_true]
    refine ⟨?_, by trivial⟩
    rw [hT1]
    simp [List.range_succ]
  · have hpos : ∀ i ∈ sched, 1 ≤ i := fun i hi => by
      have := (hsched i).1 hi; omega
    have hall : ∀ i ∈ sched, ∃ p,
        (subscriberPage cfg w yesterday i query).1 = .ok p := by
      intro i hi
      obtain ⟨hi2, hi3⟩ := (hsched i).1 hi
      exact ⟨ps i, hok i hi2 hi3⟩
    rcases hrun : runPages cfg w yesterday query sched
        ((List.replicate (ps 1).totalPages zeroPage).set 0 (ps 1)) none l1
      with ⟨P, errv, L⟩
    have herrnone : errv = none := by
      have h := runPages_err_none cfg w yesterday query sched
        ((List.replicate (ps 1).totalPages zeroPage).set 0 (ps 1)) l1 hall
      rw [hrun] at h
      exact h
    subst herrnone
    have hlen0 : ((List.replicate (ps 1).totalPages zeroPage).set 0
        (ps 1)).length = (ps 1).totalPages := by simp
    have hPlen : P.length = (ps 1).totalPages := by
      have h := runPages_length cfg w yesterday query sched
        ((List.replicate (ps 1).totalPages zeroPage).set 0 (ps 1)) none l1
      rw [hrun] at h
      simpa [hlen0] using h
    have hval : ∀ j, j < (ps 1).totalPages → P[j]? = some (ps (j + 1)) := by
      intro j hj
      have hg := runPages_getElem? cfg w yesterday query sched
        ((List.replicate (ps 1).totalPages zeroPage).set 0 (ps 1)) none l1 j
        (by rw [hlen0]; exact hj) hpos
      rw [hrun] at hg
      have hfst : (subscriberPage cfg w yesterday (j + 1) query).1 =
          .ok (ps (j + 1)) := by
        rcases Nat.eq_zero_or_pos j with rfl | hjpos
        · exact (by rw [h1])
        · exact hok (j + 1) (by omega) (by omega)
      rw [hfst] at hg
      by_cases hmem : j + 1 ∈ sched
      · simpa [hmem] using hg
      · have hj0 : j = 0 := by
          by_contra hne
          exact hmem ((hsched (j + 1)).2 ⟨by omega, by omega⟩)
        subst hj0
        simp only [hmem, if_false] at hg
        rw [hg]
        rw [List.getElem?_set_self (by simp; omega)]
    have hP : P = (List.range (ps 1).totalPages).map (fun k => ps (k + 1)) := by
      apply List.ext_getElem?
      intro j
      by_cases hj : j < (ps 1).totalPages
      · rw [hval j hj]
        simp [List.getElem?_range hj]
      · rw [List.getElem?_eq_none (by omega : P.length ≤ j),
          List.getElem?_eq_none (by simp; omega)]
    have hsub := Subscribers_eq_of_ok cfg w yesterday query sched (ps 1) l1 h1 hle
    rw [hsub, hrun]
    refine ⟨?_, rfl⟩
    show (P.map (·.subscribers)).flatten = _
    rw [hP, List.map_map]
    rfl

/-- Witness for `subscribers_merge_order`: three pages, with pages 3 and
2 completing in that order; the merge is still page 1 ++ page 2 ++
page 3. -/
theorem subscribers_merge_order_witness :
    (Subscribers testCfg world3 "" none [3, 2]).1 =
      ((List.range 3).map (fun k => (sample3 (k + 1)).subscribers)).flatten ∧
    (Subscribers testCfg world3 "" none [3, 2]).2.1 = none :=
  subscribers_merge_order testCfg world3 "" none [3, 2] sample3 [pageURL 1]
    rfl (by decide)
    (by intro i
        simp only [List.mem_cons, List.not_mem_nil, or_false]
        show i = 3 ∨ i = 2 ↔ 2 ≤ i ∧ i ≤ 3
        omega)
    (by intro i h2 h3
        have h3' : i ≤ 3 := h3
        interval_cases i <;> rfl)

/-- C5: if some page `i` with `2 <= i <= T` fails, `Subscribers` still
performs every scheduled page fetch (the request log covers the whole
schedule — the `errgroup` join waits for all goroutines), then returns
a non-nil error and no partial result (Go's nil slice). -/
theorem subscribers_page_failure_fails (cfg : Config) (w : World)
    (yesterday : String) (query : Option SubscriberQuery) (sched : List Nat)
    (p1 : SubscriberPage) (l1 : List String) (i : Nat) (e : Error)
    (h1 : subscriberPage cfg w yesterday 1 query = (.ok p1, l1))
    (hT : 2 ≤ p1.totalPages)
    (hsched : ∀ j, j ∈ sched ↔ 2 ≤ j ∧ j ≤ p1.totalPages)
    (hi2 : 2 ≤ i) (hiT : i ≤ p1.totalPages)
    (he : (subscriberPage cfg w yesterday i query).1 = .error e) :
    ∃ e', Subscribers cfg w yesterday query sched =
      ([], some e',
       l1 ++ (sched.map
         (fun j => (subscriberPage cfg w yesterday j query).2)).flatten) := by
  have hle : ¬ p1.totalPages ≤ 1 := by omega
  have hi : i ∈ sched := (hsched i).2 ⟨hi2, hiT⟩
  rcases hrun : runPages cfg w yesterday query sched
      ((List.replicate p1.totalPages zeroPage).set 0 p1) none l1
    with ⟨P, errv, L⟩
  have hsome : errv.isSome := by
    have h := runPages_err_isSome cfg w yesterday query sched
      ((List.replicate p1.totalPages zeroPage).set 0 p1) none l1 i hi e he
    rw [hrun] at h
    exact h
  have hlog : L = l1 ++ (sched.map
      (fun j => (subscriberPage cfg w yesterday j query).2)).flatten := by
    have h := runPages_log cfg w yesterday query sched
      ((List.replicate p1.totalPages zeroPage).set 0 p1) none l1
    rw [hrun] at h
    exact h
  rcases errv with _ | e'
  · simp at hsome
  · refine ⟨e', ?_⟩
    rw [Subscribers_eq_of_ok cfg w yesterday query sched p1 l1 h1 hle, hrun,
      hlog]

/-- Witness for `subscribers_page_failure_fails`: page 3 of 3 answers
502; both remaining pages are still fetched, and the call fails with no
partial result. -/
theorem subscribers_page_failure_fails_witness :
    ∃ e', Subscribers testCfg worldFail3 "" none [3, 2] =
      ([], some e',
       [pageURL 1] ++ (([3, 2].map
         (fun j => (subscriberPage testCfg worldFail3 "" j none).2)).flatten)) :=
  subscribers_page_failure_fails testCfg worldFail3 "" none [3, 2]
    (samplePage 1 3) [pageURL 1] 3 (.httpStatus "502 Bad Gateway")
    rfl (by decide)
    (by intro j
        simp only [List.mem_cons, List.not_mem_nil, or_false]
        show j = 3 ∨ j = 2 ↔ 2 ≤ j ∧ j ≤ 3
        omega)
    (by decide) (by decide) rfl

/-- C7 counterexample: `AddTag` does not guarantee the tag occurs
exactly once afterwards — on a request whose `Tags` field already holds
the tag twice (the field is public, so such a value is constructible),
`AddTag` leaves both occurrences in place. -/
theorem addTag_exactly_once_counterexample :
    ¬ ((({ email := "", firstName := "", fields := [], tags := [5, 5]
           apiKey := "" } : SubscriptionRequest).addTag 5).tags.count 5 = 1) := by
  decide

/-- C7 (amended): `AddTag` is idempotent; it leaves the request
unchanged when the tag is present and appends the tag at the end
otherwise; and whenever the tag occurred at most once before (in
particular on any `Tags` list `AddTag` itself built), it occurs exactly
once afterwards. -/
theorem addTag_props (r : SubscriptionRequest) (t : Int) :
    (r.addTag t).addTag t = r.addTag t ∧
    (t ∈ r.tags → r.addTag t = r) ∧
    (t ∉ r.tags → (r.addTag t).tags = r.tags ++ [t]) ∧
    (r.tags.count t ≤ 1 → (r.addTag t).tags.count t = 1) := by
  by_cases hm : t ∈ r.tags
  · have hc : r.tags.contains t = true := by simpa using hm
    have h1 : r.addTag t = r := by
      unfold SubscriptionRequest.addTag
      rw [if_pos hc]
    refine ⟨by rw [h1, h1], fun _ => h1, fun hnm => (hnm hm).elim, fun hle => ?_⟩
    rw [h1]
    have hpos := List.count_pos_iff.mpr hm
    omega
  · have hc : r.tags.contains t = false := by simpa using hm
    have h1 : r.addTag t = { r with tags := r.tags ++ [t] } := by
      unfold SubscriptionRequest.addTag
      rw [if_neg (by rw [hc]; simp)]
    have h2 : (r.addTag t).addTag t = r.addTag t := by
      rw [h1]
      simp [SubscriptionRequest.addTag]
    refine ⟨h2, fun hmem => (hm hmem).elim, fun _ => by rw [h1], fun _ => ?_⟩
    rw [h1]
    simp [List.count_append, List.count_eq_zero_of_not_mem hm]

/-- C4: along every execution of the page-2..T goroutine pool, at most
`limit` page fetches are outstanding at any time (the buffered `limiter`
channel admits a sender only while it holds fewer than `limit` tokens),
and whenever a slot is free a blocked goroutine may take it (when one
call completes, a waiting call may start). -/
theorem subscribers_bounded_concurrency (limit n : Nat)
    (s : List WorkerStatus) (hs : FetchReachable limit n s) :
    outstanding s ≤ limit ∧
    (∀ k, s[k]? = some WorkerStatus.blocked → outstanding s < limit →
      FetchStep limit s (s.set k WorkerStatus.fetching)) := by
  refine ⟨?_, fun k hk hlt => FetchStep.acquire s k hk hlt⟩
  induction hs with
  | init => simp [outstanding, List.countP_replicate]
  | @step s t hs hst ih =>
    cases hst with
    | acquire k hk hfree =>
      obtain ⟨hklen, hsk⟩ := List.getElem?_eq_some_iff.mp hk
      have := List.countP_set (· = WorkerStatus.fetching) s k
        WorkerStatus.fetching hklen
      rw [outstanding, this, hsk]
      have h1 : (if decide (WorkerStatus.blocked = WorkerStatus.fetching) = true
          then 1 else 0) = 0 := by decide
      have h2 : (if decide (WorkerStatus.fetching = WorkerStatus.fetching) = true
          then 1 else 0) = 1 := by decide
      rw [h1, h2]
      rw [outstanding] at hfree
      omega
    | finish k hk =>
      obtain ⟨hklen, hsk⟩ := List.getElem?_eq_some_iff.mp hk
      have := List.countP_set (· = WorkerStatus.fetching) s k
        WorkerStatus.done hklen
      rw [outstanding, this, hsk]
      have h1 : (if decide (WorkerStatus.fetching = WorkerStatus.fetching) = true
          then 1 else 0) = 1 := by decide
      have h2 : (if decide (WorkerStatus.done = WorkerStatus.fetching) = true
          then 1 else 0) = 0 := by decide
      rw [h1, h2]
      rw [outstanding] at ih
      omega

/-- Witness for `subscribers_bounded_concurrency`: four goroutines under
limit 2, one step after the start (one goroutine has entered its
fetch). -/
theorem subscribers_bounded_concurrency_witness :
    outstanding ((List.replicate 4 WorkerStatus.blocked).set 0
      WorkerStatus.fetching) ≤ 2 ∧
    (∀ k, ((List.replicate 4 WorkerStatus.blocked).set 0
        WorkerStatus.fetching)[k]? = some WorkerStatus.blocked →
      outstanding ((List.replicate 4 WorkerStatus.blocked).set 0
        WorkerStatus.fetching) < 2 →
      FetchStep 2 ((List.replicate 4 WorkerStatus.blocked).set 0
        WorkerStatus.fetching)
        (((List.replicate 4 WorkerStatus.blocked).set 0
          WorkerStatus.fetching).set k WorkerStatus.fetching)) :=
  subscribers_bounded_concurrency 2 4 _
    (FetchReachable.step FetchReachable.init
      (FetchStep.acquire _ 0 (by decide) (by decide)))

/-- Witness for `addTag_props`: adding tag 5 twice to a request tagged
`[1, 2]` yields `[1, 2, 5]` both times, with 5 occurring once. -/
theorem addTag_props_witness :
    ((({ email := "", firstName := "", fields := [], tags := [1, 2]
         apiKey := "" } : SubscriptionRequest).addTag 5).addTag 5 =
      ({ email := "", firstName := "", fields := [], tags := [1, 2]
         apiKey := "" } : SubscriptionRequest).addTag 5) ∧
    ((({ email := "", firstName := "", fields := [], tags := [1, 2]
         apiKey := "" } : SubscriptionRequest).addTag 5).tags = [1, 2, 5]) ∧
    ((({ email := "", firstName := "", fields := [], tags := [1, 2]
         apiKey := "" } : SubscriptionRequest).addTag 5).tags.count 5 = 1) :=
  ⟨(addTag_props
      { email := "", firstName := "", fields := [], tags := [1, 2]
        apiKey := "" } 5).1,
   (addTag_props
      { email := "", firstName := "", fields := [], tags := [1, 2]
        apiKey := "" } 5).2.2.1 (by decide),
   (addTag_props
      { email := "", firstName := "", fields := [], tags := [1, 2]
        apiKey := "" } 5).2.2.2 (by decide)⟩

end ConvertKit
